import Mathlib

/-!
Shallow embedding of `src/src/ofxStructureCore.cpp` (ofxStructureCore, gallagher-tech).

The class is a producer/consumer frame pipeline: an asynchronous capture thread
delivers frames through `handleNewFrame` / `handleSessionEvent`, and the consumer
tick `update` drains dirty modalities into image containers and rebuilds a 3D
point cloud from the depth image via `updatePointCloud`.

Floating-point values (`float` pixels, intrinsics, matrix entries) are modelled
as rationals; the properties at stake are formula-level, not rounding-level.
The mutex only serialises the two threads; the sequential semantics of each
member function is modelled as a pure state transformer on `SCState`.
-/

namespace StructureCore

/-- 3-component vector, standing in for `glm::vec3`. -/
structure Vec3 where
  x : ℚ
  y : ℚ
  z : ℚ
  deriving DecidableEq, Repr

/-- Depth camera intrinsics, standing in for `ST::Intrinsics` as used by the code:
focal lengths `fx`, `fy` and principal point `cx`, `cy`. -/
structure Intrinsics where
  cx : ℚ
  cy : ℚ
  fx : ℚ
  fy : ℚ
  deriving DecidableEq, Repr

/-- A 4x4 matrix (`glm::mat4`), modelled as its 16 entries in order. -/
abbrev Mat4 : Type := List ℚ

/-- The matrix `glm::mat4(1)`: the identity sentinel the capture guard compares against. -/
def identity4 : Mat4 :=
  [1, 0, 0, 0,  0, 1, 0, 0,  0, 0, 1, 0,  0, 0, 0, 1]

/-- Payload of an `ST::DepthFrame`: size, per-pixel depth in millimeters (row-major),
the frame's GL projection matrix and intrinsics metadata, and its validity flag. -/
structure DepthFrame where
  width : ℕ
  height : ℕ
  depthInMillimeters : List ℚ
  glProjectionMatrix : Mat4
  intrinsics : Intrinsics
  isValid : Bool
  deriving DecidableEq, Repr

/-- Payload of an `ST::ColorFrame` (visible): size, 3-channel rgb data, validity. -/
structure VisibleFrame where
  width : ℕ
  height : ℕ
  rgbData : List ℚ
  isValid : Bool
  deriving DecidableEq, Repr

/-- Payload of an `ST::InfraredFrame`: size, single-channel data, validity. -/
structure InfraredFrame where
  width : ℕ
  height : ℕ
  data : List ℚ
  isValid : Bool
  deriving DecidableEq, Repr

/-- An `ST::AccelerometerEvent`: a 3-axis acceleration sample. -/
structure AccelerometerEvent where
  acceleration : Vec3
  deriving DecidableEq, Repr

/-- A `ST::GyroscopeEvent`: a 3-axis rotation-rate sample. -/
structure GyroscopeEvent where
  rotationRate : Vec3
  deriving DecidableEq, Repr

/-- The frame-kind tag (`Frame::Type`). `other` stands for every enum value the
switch in `handleNewFrame` does not recognise (its `default` case). -/
inductive FrameType where
  | DepthFrame
  | VisibleFrame
  | InfraredFrame
  | SynchronizedFrames
  | AccelerometerEvent
  | GyroscopeEvent
  | other
  deriving DecidableEq, Repr

/-- A delivered frame (`ofxStructureCore::Frame`): a tag plus the per-modality
payload members the handler reads. -/
structure Frame where
  type : FrameType
  depthFrame : DepthFrame
  visibleFrame : VisibleFrame
  infraredFrame : InfraredFrame
  accelerometerEvent : AccelerometerEvent
  gyroscopeEvent : GyroscopeEvent
  deriving DecidableEq, Repr

/-- A CPU pixel container (`ofFloatImage` / `ofShortImage` et al. as used here):
`setFromPixels(data, w, h, ch)` stores exactly these four components. -/
structure Image where
  width : ℕ
  height : ℕ
  channels : ℕ
  pixels : List ℚ
  deriving DecidableEq, Repr

/-- Capture-session event kinds (`ST::CaptureSessionEventId`); `other` stands for
every value the switch in `handleSessionEvent` does not recognise. -/
inductive EventType where
  | Booting
  | Ready
  | Connected
  | Streaming
  | Disconnected
  | Error
  | other
  deriving DecidableEq, Repr

/-- The mutable members of `ofxStructureCore` that the modelled member functions
read or write: frame slots, dirty flags, motion registers, captured projection
matrix and intrinsics, the three image containers, the point cloud, the GPU
vertex buffer contents, and the streaming flags. -/
structure SCState where
  depthFrame : DepthFrame
  visibleFrame : VisibleFrame
  irFrame : InfraredFrame
  depthDirty : Bool
  irDirty : Bool
  visibleDirty : Bool
  accelerometerEvent : AccelerometerEvent
  gyroscopeEvent : GyroscopeEvent
  depthProjectionMatrix : Mat4
  depthIntrinsics : Intrinsics
  depthImg : Image
  irImg : Image
  visibleImg : Image
  pointcloud : List Vec3
  vbo : List Vec3
  isStreaming : Bool
  streamOnReady : Bool
  isFrameNew : Bool
  deriving DecidableEq, Repr

/-- An all-zero depth frame used for the initial slot contents. -/
def emptyDepthFrame : DepthFrame :=
  { width := 0, height := 0, depthInMillimeters := [], glProjectionMatrix := identity4
  , intrinsics := { cx := 0, cy := 0, fx := 0, fy := 0 }, isValid := false }

/-- Modelled from the spec: the class header (with the member initialisers) is not
under `src/`; only `ofxStructureCore.cpp` is. Per the spec, dirty flags, the
streaming flag and the stream-on-ready flag start false, the stored projection
matrix starts at the identity sentinel (the capture guard "only triggers while
intrinsics are at their uninitialized sentinel"), and the image containers,
point cloud and motion registers start empty/zero. -/
def init : SCState :=
  { depthFrame := emptyDepthFrame
  , visibleFrame := { width := 0, height := 0, rgbData := [], isValid := false }
  , irFrame := { width := 0, height := 0, data := [], isValid := false }
  , depthDirty := false, irDirty := false, visibleDirty := false
  , accelerometerEvent := { acceleration := ⟨0, 0, 0⟩ }
  , gyroscopeEvent := { rotationRate := ⟨0, 0, 0⟩ }
  , depthProjectionMatrix := identity4
  , depthIntrinsics := { cx := 0, cy := 0, fx := 0, fy := 0 }
  , depthImg := { width := 0, height := 0, channels := 1, pixels := [] }
  , irImg := { width := 0, height := 0, channels := 1, pixels := [] }
  , visibleImg := { width := 0, height := 0, channels := 3, pixels := [] }
  , pointcloud := [], vbo := []
  , isStreaming := false, streamOnReady := false, isFrameNew := false }

/-- The tail of `handleNewFrame` (cpp lines 167-174): while the stored projection
matrix is still the identity sentinel and the depth slot is dirty, (re)capture the
projection matrix and the intrinsics from the stored depth frame. -/
def captureIntrinsics (s : SCState) : SCState :=
  if s.depthDirty = true ∧ s.depthProjectionMatrix = identity4 then
    { s with depthProjectionMatrix := s.depthFrame.glProjectionMatrix
           , depthIntrinsics := s.depthFrame.intrinsics }
  else s

/-- The switch of `handleNewFrame` (cpp lines 116-166): per-modality replace and
mark dirty; synchronized bundles update each modality whose sub-frame is valid;
motion events overwrite their register; the `default` case only logs. -/
def dispatchFrame (frame : Frame) (s : SCState) : SCState :=
  match frame.type with
  | FrameType.DepthFrame =>
      { s with depthFrame := frame.depthFrame, depthDirty := true }
  | FrameType.VisibleFrame =>
      { s with visibleFrame := frame.visibleFrame, visibleDirty := true }
  | FrameType.InfraredFrame =>
      { s with irFrame := frame.infraredFrame, irDirty := true }
  | FrameType.SynchronizedFrames =>
      let s1 := if frame.depthFrame.isValid = true then
          { s with depthFrame := frame.depthFrame, depthDirty := true } else s
      let s2 := if frame.visibleFrame.isValid = true then
          { s1 with visibleFrame := frame.visibleFrame, visibleDirty := true } else s1
      if frame.infraredFrame.isValid = true then
          { s2 with irFrame := frame.infraredFrame, irDirty := true } else s2
  | FrameType.AccelerometerEvent =>
      { s with accelerometerEvent := frame.accelerometerEvent }
  | FrameType.GyroscopeEvent =>
      { s with gyroscopeEvent := frame.gyroscopeEvent }
  | FrameType.other => s

/-- `ofxStructureCore::handleNewFrame` (cpp lines 112-175): the dispatch switch
followed by the lazy intrinsics capture. -/
def handleNewFrame (frame : Frame) (s : SCState) : SCState :=
  captureIntrinsics (dispatchFrame frame s)

/-- `ofxStructureCore::start` (cpp lines 17-26). The result of the SDK call
`_captureSession.startStreaming()` is the environment input `streamOk`.
Returns the `bool` result together with the new state. -/
def start (streamOk : Bool) (s : SCState) : Bool × SCState :=
  let s1 := { s with isStreaming := streamOk }
  let s2 := if s1.isStreaming = false ∧ s1.streamOnReady = false then
      { s1 with streamOnReady := true } else s1
  (s1.isStreaming, s2)

/-- `ofxStructureCore::stop` (cpp lines 28-33): halt streaming, clear both flags. -/
def stop (s : SCState) : SCState :=
  { s with isStreaming := false, streamOnReady := false }

/-- `ofxStructureCore::handleSessionEvent` (cpp lines 177-208). `streamOk` is the
result the SDK would give to the nested `startStreaming()` call on `Ready`. -/
def handleSessionEvent (evt : EventType) (streamOk : Bool) (s : SCState) : SCState :=
  match evt with
  | EventType.Booting => s
  | EventType.Ready => if s.streamOnReady = true then (start streamOk s).2 else s
  | EventType.Connected => s
  | EventType.Streaming => { s with isStreaming := true }
  | EventType.Disconnected => { s with isStreaming := false }
  | EventType.Error => s
  | EventType.other => s

/-- Log levels emitted by `setup`. -/
inductive LogLevel where
  | notice
  | error
  deriving DecidableEq, Repr

/-- `ofxStructureCore::setup` (cpp lines 8-15). The SDK call
`_captureSession.startMonitoring(settings)` is the environment input
`monitoringStarted`. The C++ function is declared `bool` but contains no
`return` statement on any path: it logs and falls off the end, so no boolean
value is produced. The missing return value is modelled as `none`. -/
def setup (monitoringStarted : Bool) : Option Bool × LogLevel :=
  if monitoringStarted = true then (none, LogLevel.notice) else (none, LogLevel.error)

/-- One body iteration of the loops in `updatePointCloud` (cpp lines 226-232):
the vertex for pixel (row `r`, col `c`) at row-major index `i = r*cols + c`. -/
def unprojectPixel (intr : Intrinsics) (depths : List ℚ) (cols r c : ℕ) : Vec3 :=
  let i := r * cols + c
  let depth := depths.getD i 0
  { x := depth * ((c : ℚ) - intr.cx) / intr.fx
  , y := depth * ((r : ℚ) - intr.cy) / intr.fy
  , z := depth }

/-- The doubly-nested loop of `updatePointCloud` (cpp lines 224-234): every index
`0 ≤ i < rows*cols` is written exactly once, row-major, so the resized-and-filled
vertex array equals this freshly built list. -/
def buildVertices (intr : Intrinsics) (depths : List ℚ) (rows cols : ℕ) : List Vec3 :=
  (List.range rows).flatMap fun r => (List.range cols).map fun c =>
    unprojectPixel intr depths cols r c

/-- `ofxStructureCore::updatePointCloud` (cpp lines 210-242): rebuild the vertex
array from the depth image and the captured intrinsics, then upload it wholesale
to the vbo (`vbo.setVertexData(..., nVerts, GL_STATIC_DRAW)`). -/
def updatePointCloud (s : SCState) : SCState :=
  let cols := s.depthImg.width
  let rows := s.depthImg.height
  let verts := buildVertices s.depthIntrinsics s.depthImg.pixels rows cols
  { s with pointcloud := verts, vbo := verts }

/-- The depth branch of `update` (cpp lines 39-48): copy the raw depth frame into
the depth image container (single channel), rebuild the point cloud, clear the
dirty flag. -/
def drainDepth (s : SCState) : SCState :=
  if s.depthDirty = true then
    let img : Image :=
      { width := s.depthFrame.width, height := s.depthFrame.height, channels := 1
      , pixels := s.depthFrame.depthInMillimeters }
    let s2 := updatePointCloud { s with depthImg := img }
    { s2 with depthDirty := false }
  else s

/-- The infrared branch of `update` (cpp lines 49-56). -/
def drainIr (s : SCState) : SCState :=
  if s.irDirty = true then
    let img : Image :=
      { width := s.irFrame.width, height := s.irFrame.height, channels := 1
      , pixels := s.irFrame.data }
    { s with irImg := img, irDirty := false }
  else s

/-- The visible branch of `update` (cpp lines 57-64). -/
def drainVisible (s : SCState) : SCState :=
  if s.visibleDirty = true then
    let img : Image :=
      { width := s.visibleFrame.width, height := s.visibleFrame.height, channels := 3
      , pixels := s.visibleFrame.rgbData }
    { s with visibleImg := img, visibleDirty := false }
  else s

/-- `ofxStructureCore::update` (cpp lines 35-65): record the is-new-frame signal
from the dirty flags observed at entry, then drain depth, infrared and visible in
that order. -/
def update (s : SCState) : SCState :=
  drainVisible (drainIr (drainDepth
    { s with isFrameNew := s.depthDirty || s.irDirty || s.visibleDirty }))

/-- One externally observable operation on the object: a capture-thread callback,
a consumer tick, or an application call to start/stop. The `Bool` inputs are the
SDK's answer to the `startStreaming()` call inside. -/
inductive Op where
  | newFrame (f : Frame)
  | sessionEvent (e : EventType) (streamOk : Bool)
  | tick
  | doStart (streamOk : Bool)
  | doStop
  deriving DecidableEq, Repr

/-- Apply a single operation to the state. -/
def applyOp (op : Op) (s : SCState) : SCState :=
  match op with
  | Op.newFrame f => handleNewFrame f s
  | Op.sessionEvent e ok => handleSessionEvent e ok s
  | Op.tick => update s
  | Op.doStart ok => (start ok s).2
  | Op.doStop => stop s

/-- Run a sequence of operations from a state. -/
def run (ops : List Op) (s : SCState) : SCState :=
  ops.foldl (fun t op => applyOp op t) s

/-! ### Frame-effect lemmas: which fields each transformer can touch -/

theorem captureIntrinsics_only (s : SCState) :
    ∃ m i, captureIntrinsics s =
      { s with depthProjectionMatrix := m, depthIntrinsics := i } := by
  unfold captureIntrinsics
  split
  · exact ⟨_, _, rfl⟩
  · exact ⟨s.depthProjectionMatrix, s.depthIntrinsics, rfl⟩

theorem updatePointCloud_only (s : SCState) :
    ∃ pc, updatePointCloud s = { s with pointcloud := pc, vbo := pc } :=
  ⟨_, rfl⟩

theorem drainDepth_only (s : SCState) :
    ∃ img pc vb d, drainDepth s =
      { s with depthImg := img, pointcloud := pc, vbo := vb, depthDirty := d } := by
  unfold drainDepth
  split
  · exact ⟨_, _, _, _, rfl⟩
  · exact ⟨s.depthImg, s.pointcloud, s.vbo, s.depthDirty, rfl⟩

theorem drainIr_only (s : SCState) :
    ∃ img d, drainIr s = { s with irImg := img, irDirty := d } := by
  unfold drainIr
  split
  · exact ⟨_, _, rfl⟩
  · exact ⟨s.irImg, s.irDirty, rfl⟩

theorem drainVisible_only (s : SCState) :
    ∃ img d, drainVisible s = { s with visibleImg := img, visibleDirty := d } := by
  unfold drainVisible
  split
  · exact ⟨_, _, rfl⟩
  · exact ⟨s.visibleImg, s.visibleDirty, rfl⟩

theorem dispatchFrame_only (f : Frame) (s : SCState) :
    ∃ df vf irf dd vd ird acc gyro, dispatchFrame f s =
      { s with depthFrame := df, visibleFrame := vf, irFrame := irf
             , depthDirty := dd, visibleDirty := vd, irDirty := ird
             , accelerometerEvent := acc, gyroscopeEvent := gyro } := by
  unfold dispatchFrame
  cases f.type
  case DepthFrame => exact ⟨_, _, _, _, _, _, _, _, rfl⟩
  case VisibleFrame => exact ⟨_, _, _, _, _, _, _, _, rfl⟩
  case InfraredFrame => exact ⟨_, _, _, _, _, _, _, _, rfl⟩
  case SynchronizedFrames =>
    dsimp only
    split <;> split <;> split <;> exact ⟨_, _, _, _, _, _, _, _, rfl⟩
  case AccelerometerEvent => exact ⟨_, _, _, _, _, _, _, _, rfl⟩
  case GyroscopeEvent => exact ⟨_, _, _, _, _, _, _, _, rfl⟩
  case other => exact ⟨_, _, _, _, _, _, _, _, rfl⟩

theorem start_only (ok : Bool) (s : SCState) :
    ∃ b r, (start ok s).2 = { s with isStreaming := b, streamOnReady := r } := by
  unfold start
  dsimp only
  split
  · exact ⟨_, _, rfl⟩
  · exact ⟨_, s.streamOnReady, rfl⟩

theorem stop_only (s : SCState) :
    stop s = { s with isStreaming := false, streamOnReady := false } := rfl

theorem handleSessionEvent_only (e : EventType) (ok : Bool) (s : SCState) :
    ∃ b r, handleSessionEvent e ok s =
      { s with isStreaming := b, streamOnReady := r } := by
  cases e
  case Ready =>
    simp only [handleSessionEvent]
    split
    · exact start_only ok s
    · exact ⟨s.isStreaming, s.streamOnReady, rfl⟩
  case Streaming => exact ⟨true, s.streamOnReady, rfl⟩
  case Disconnected => exact ⟨false, s.streamOnReady, rfl⟩
  all_goals exact ⟨s.isStreaming, s.streamOnReady, rfl⟩

theorem handleNewFrame_only (f : Frame) (s : SCState) :
    ∃ df vf irf dd vd ird acc gyro m i, handleNewFrame f s =
      { s with depthFrame := df, visibleFrame := vf, irFrame := irf
             , depthDirty := dd, visibleDirty := vd, irDirty := ird
             , accelerometerEvent := acc, gyroscopeEvent := gyro
             , depthProjectionMatrix := m, depthIntrinsics := i } := by
  obtain ⟨df, vf, irf, dd, vd, ird, a, g, h1⟩ := dispatchFrame_only f s
  obtain ⟨m, i, h2⟩ := captureIntrinsics_only (dispatchFrame f s)
  refine ⟨df, vf, irf, dd, vd, ird, a, g, m, i, ?_⟩
  unfold handleNewFrame
  rw [h2, h1]

/-! ### Field-level consequences of the drain steps -/

theorem drainDepth_depthDirty (s : SCState) : (drainDepth s).depthDirty = false := by
  unfold drainDepth
  split
  · rfl
  · rename_i h
    simpa using h

theorem drainIr_depthImg (s : SCState) : (drainIr s).depthImg = s.depthImg := by
  obtain ⟨img, d, h⟩ := drainIr_only s
  rw [h]

theorem drainIr_pointcloud (s : SCState) : (drainIr s).pointcloud = s.pointcloud := by
  obtain ⟨img, d, h⟩ := drainIr_only s
  rw [h]

theorem drainIr_vbo (s : SCState) : (drainIr s).vbo = s.vbo := by
  obtain ⟨img, d, h⟩ := drainIr_only s
  rw [h]

theorem drainIr_depthDirty (s : SCState) : (drainIr s).depthDirty = s.depthDirty := by
  obtain ⟨img, d, h⟩ := drainIr_only s
  rw [h]

theorem drainVisible_depthImg (s : SCState) : (drainVisible s).depthImg = s.depthImg := by
  obtain ⟨img, d, h⟩ := drainVisible_only s
  rw [h]

theorem drainVisible_pointcloud (s : SCState) :
    (drainVisible s).pointcloud = s.pointcloud := by
  obtain ⟨img, d, h⟩ := drainVisible_only s
  rw [h]

theorem drainVisible_vbo (s : SCState) : (drainVisible s).vbo = s.vbo := by
  obtain ⟨img, d, h⟩ := drainVisible_only s
  rw [h]

theorem drainVisible_depthDirty (s : SCState) :
    (drainVisible s).depthDirty = s.depthDirty := by
  obtain ⟨img, d, h⟩ := drainVisible_only s
  rw [h]

/-- The depth dirty flag is always clear when `update` returns. -/
theorem update_depthDirty (s : SCState) : (update s).depthDirty = false := by
  unfold update
  rw [drainVisible_depthDirty, drainIr_depthDirty, drainDepth_depthDirty]

/-- Fields of the state not drained by `update`: everything except the images,
the point cloud, the vbo, the dirty flags and the is-new-frame signal. -/
theorem update_only (s : SCState) :
    ∃ di ii vi pc vb dd ird vd, update s =
      { s with depthImg := di, irImg := ii, visibleImg := vi
             , pointcloud := pc, vbo := vb
             , depthDirty := dd, irDirty := ird, visibleDirty := vd
             , isFrameNew := s.depthDirty || s.irDirty || s.visibleDirty } := by
  unfold update drainVisible drainIr drainDepth
  split <;> split <;> split <;> exact ⟨_, _, _, _, _, _, _, _, rfl⟩

theorem update_isFrameNew (s : SCState) :
    (update s).isFrameNew = (s.depthDirty || s.irDirty || s.visibleDirty) := by
  obtain ⟨di, ii, vi, pc, vb, dd, ird, vd, h⟩ := update_only s
  rw [h]

theorem update_streamOnReady (s : SCState) :
    (update s).streamOnReady = s.streamOnReady := by
  obtain ⟨di, ii, vi, pc, vb, dd, ird, vd, h⟩ := update_only s
  rw [h]

theorem update_depthIntrinsics (s : SCState) :
    (update s).depthIntrinsics = s.depthIntrinsics := by
  obtain ⟨di, ii, vi, pc, vb, dd, ird, vd, h⟩ := update_only s
  rw [h]

theorem update_depthProjectionMatrix (s : SCState) :
    (update s).depthProjectionMatrix = s.depthProjectionMatrix := by
  obtain ⟨di, ii, vi, pc, vb, dd, ird, vd, h⟩ := update_only s
  rw [h]

theorem update_depthFrame (s : SCState) : (update s).depthFrame = s.depthFrame := by
  obtain ⟨di, ii, vi, pc, vb, dd, ird, vd, h⟩ := update_only s
  rw [h]

/-- Drain with no dirty modality only records the (false) is-new-frame signal. -/
theorem update_clean (s : SCState) (h1 : s.depthDirty = false) (h2 : s.irDirty = false)
    (h3 : s.visibleDirty = false) : update s = { s with isFrameNew := false } := by
  unfold update drainVisible drainIr drainDepth
  simp [h1, h2, h3]

/-- Drain of a dirty depth slot: the depth image is rebuilt from the stored depth
frame, the point cloud and vbo are rebuilt from that image with the captured
intrinsics, and the dirty flag ends cleared. -/
theorem update_dirtyDepth (s : SCState) (h : s.depthDirty = true) :
    (update s).depthImg =
      { width := s.depthFrame.width, height := s.depthFrame.height, channels := 1
      , pixels := s.depthFrame.depthInMillimeters } ∧
    (update s).pointcloud =
      buildVertices s.depthIntrinsics s.depthFrame.depthInMillimeters
        s.depthFrame.height s.depthFrame.width ∧
    (update s).vbo =
      buildVertices s.depthIntrinsics s.depthFrame.depthInMillimeters
        s.depthFrame.height s.depthFrame.width ∧
    (update s).depthDirty = false := by
  refine ⟨?_, ?_, ?_, update_depthDirty s⟩
  · unfold update
    rw [drainVisible_depthImg, drainIr_depthImg]
    unfold drainDepth
    rw [if_pos (show (_ : SCState).depthDirty = true from h)]
    rfl
  · unfold update
    rw [drainVisible_pointcloud, drainIr_pointcloud]
    unfold drainDepth
    rw [if_pos (show (_ : SCState).depthDirty = true from h)]
    rfl
  · unfold update
    rw [drainVisible_vbo, drainIr_vbo]
    unfold drainDepth
    rw [if_pos (show (_ : SCState).depthDirty = true from h)]
    rfl

/-! ### Shape and contents of the rebuilt vertex array -/

theorem buildVertices_succ (intr : Intrinsics) (depths : List ℚ) (n cols : ℕ) :
    buildVertices intr depths (n + 1) cols =
      buildVertices intr depths n cols ++
        (List.range cols).map (unprojectPixel intr depths cols n) := by
  unfold buildVertices
  rw [List.range_succ, List.flatMap_append]
  simp

theorem length_buildVertices (intr : Intrinsics) (depths : List ℚ) (rows cols : ℕ) :
    (buildVertices intr depths rows cols).length = rows * cols := by
  induction rows with
  | zero => simp [buildVertices]
  | succ n ih =>
    rw [buildVertices_succ, List.length_append, ih, List.length_map,
      List.length_range, Nat.succ_mul]

theorem getElem?_buildVertices (intr : Intrinsics) (depths : List ℚ)
    (rows cols r c : ℕ) (hr : r < rows) (hc : c < cols) :
    (buildVertices intr depths rows cols)[r * cols + c]? =
      some (unprojectPixel intr depths cols r c) := by
  induction rows with
  | zero => omega
  | succ n ih =>
    rw [buildVertices_succ, List.getElem?_append, length_buildVertices]
    rcases Nat.lt_succ_iff_lt_or_eq.mp hr with h | h
    · have hlt : r * cols + c < n * cols := by
        calc r * cols + c < r * cols + cols := by omega
        _ = (r + 1) * cols := by ring
        _ ≤ n * cols := Nat.mul_le_mul_right cols h
      rw [if_pos hlt]
      exact ih h
    · subst h
      rw [if_neg (by omega)]
      have hsub : r * cols + c - r * cols = c := by omega
      rw [hsub, List.getElem?_map, List.getElem?_range hc]
      rfl

theorem buildVertices_getD (intr : Intrinsics) (depths : List ℚ)
    (rows cols r c : ℕ) (hr : r < rows) (hc : c < cols) :
    (buildVertices intr depths rows cols).getD (r * cols + c) ⟨0, 0, 0⟩ =
      unprojectPixel intr depths cols r c := by
  rw [List.getD_eq_getElem?_getD, getElem?_buildVertices intr depths rows cols r c hr hc]
  rfl

/-! ### The capture guard: one-shot capture and stability -/

theorem dispatchFrame_depthProjectionMatrix (f : Frame) (s : SCState) :
    (dispatchFrame f s).depthProjectionMatrix = s.depthProjectionMatrix := by
  obtain ⟨df, vf, irf, dd, vd, ird, a, g, h⟩ := dispatchFrame_only f s
  rw [h]

theorem dispatchFrame_depthIntrinsics (f : Frame) (s : SCState) :
    (dispatchFrame f s).depthIntrinsics = s.depthIntrinsics := by
  obtain ⟨df, vf, irf, dd, vd, ird, a, g, h⟩ := dispatchFrame_only f s
  rw [h]

/-- Once the stored projection matrix has left the identity sentinel, delivering
any frame leaves the captured matrix and intrinsics untouched. -/
theorem handleNewFrame_capture_stable (f : Frame) (s : SCState)
    (h : s.depthProjectionMatrix ≠ identity4) :
    (handleNewFrame f s).depthProjectionMatrix = s.depthProjectionMatrix ∧
    (handleNewFrame f s).depthIntrinsics = s.depthIntrinsics := by
  unfold handleNewFrame captureIntrinsics
  split
  · rename_i hc
    exact absurd ((dispatchFrame_depthProjectionMatrix f s).symm.trans hc.2) h
  · exact ⟨dispatchFrame_depthProjectionMatrix f s, dispatchFrame_depthIntrinsics f s⟩

theorem applyOp_capture_stable (op : Op) (s : SCState)
    (h : s.depthProjectionMatrix ≠ identity4) :
    (applyOp op s).depthProjectionMatrix = s.depthProjectionMatrix ∧
    (applyOp op s).depthIntrinsics = s.depthIntrinsics := by
  cases op with
  | newFrame f => exact handleNewFrame_capture_stable f s h
  | sessionEvent e ok =>
    obtain ⟨b, r, he⟩ := handleSessionEvent_only e ok s
    constructor <;> simp only [applyOp] <;> rw [he]
  | tick => exact ⟨update_depthProjectionMatrix s, update_depthIntrinsics s⟩
  | doStart ok =>
    obtain ⟨b, r, he⟩ := start_only ok s
    constructor <;> simp only [applyOp] <;> rw [he]
  | doStop => exact ⟨rfl, rfl⟩

theorem run_capture_stable (ops : List Op) (s : SCState)
    (h : s.depthProjectionMatrix ≠ identity4) :
    (run ops s).depthProjectionMatrix = s.depthProjectionMatrix ∧
    (run ops s).depthIntrinsics = s.depthIntrinsics := by
  induction ops generalizing s with
  | nil => exact ⟨rfl, rfl⟩
  | cons op rest ih =>
    have h1 := applyOp_capture_stable op s h
    have h2 := ih (applyOp op s) (h1.1.symm ▸ h)
    exact ⟨h2.1.trans h1.1, h2.2.trans h1.2⟩

/-! ### Reachability invariant making the capture guard idempotent -/

/-- Whenever the depth slot is dirty while the stored projection matrix is still
the identity sentinel, the stored values are exactly what the guard would
re-capture from the stored depth frame. Every state the object reaches from its
initial state satisfies this, because the guard runs in the same handler call
that set the dirty flag. -/
def CaptureInv (s : SCState) : Prop :=
  s.depthDirty = true → s.depthProjectionMatrix = identity4 →
    s.depthFrame.glProjectionMatrix = identity4 ∧
    s.depthIntrinsics = s.depthFrame.intrinsics

theorem captureInv_init : CaptureInv init := by
  intro hd _
  exact Bool.noConfusion hd

theorem captureInv_captureIntrinsics (s : SCState) : CaptureInv (captureIntrinsics s) := by
  unfold captureIntrinsics
  split
  · intro _ hm
    exact ⟨hm, rfl⟩
  · rename_i hc
    intro hd hm
    exact absurd ⟨hd, hm⟩ hc

theorem captureInv_update (s : SCState) : CaptureInv (update s) := by
  intro hd _
  rw [update_depthDirty s] at hd
  exact Bool.noConfusion hd

theorem captureInv_applyOp (op : Op) (s : SCState) (h : CaptureInv s) :
    CaptureInv (applyOp op s) := by
  cases op with
  | newFrame f => exact captureInv_captureIntrinsics (dispatchFrame f s)
  | sessionEvent e ok =>
    obtain ⟨b, r, he⟩ := handleSessionEvent_only e ok s
    simp only [applyOp]
    rw [he]
    exact h
  | tick => exact captureInv_update s
  | doStart ok =>
    obtain ⟨b, r, he⟩ := start_only ok s
    simp only [applyOp]
    rw [he]
    exact h
  | doStop => exact h

theorem captureInv_run (ops : List Op) (s : SCState) (h : CaptureInv s) :
    CaptureInv (run ops s) := by
  induction ops generalizing s with
  | nil => exact h
  | cons op rest ih => exact ih (applyOp op s) (captureInv_applyOp op s h)

/-- On a state satisfying the invariant, a frame of unrecognised kind leaves the
whole state unchanged: the dispatch switch only logs, and the capture guard, if
it fires at all, rewrites the stored matrix and intrinsics with themselves. -/
theorem handleNewFrame_other (f : Frame) (s : SCState)
    (hf : f.type = FrameType.other) (h : CaptureInv s) :
    handleNewFrame f s = s := by
  unfold handleNewFrame
  have hd : dispatchFrame f s = s := by
    unfold dispatchFrame
    rw [hf]
  rw [hd]
  unfold captureIntrinsics
  split
  · rename_i hc
    obtain ⟨h1, h2⟩ := h hc.1 hc.2
    rw [h1, ← h2, ← hc.2]
  · rfl

/-! ### The slot replaced by a depth or synchronized frame -/

theorem handleNewFrame_depthSlot (f : Frame) (s : SCState)
    (hf : f.type = FrameType.DepthFrame) :
    (handleNewFrame f s).depthFrame = f.depthFrame ∧
    (handleNewFrame f s).depthDirty = true := by
  unfold handleNewFrame
  obtain ⟨m, i, h⟩ := captureIntrinsics_only (dispatchFrame f s)
  rw [h]
  unfold dispatchFrame
  rw [hf]
  exact ⟨rfl, rfl⟩

theorem handleNewFrame_sync (f : Frame) (s : SCState)
    (hf : f.type = FrameType.SynchronizedFrames) :
    (handleNewFrame f s).depthFrame =
      (if f.depthFrame.isValid = true then f.depthFrame else s.depthFrame) ∧
    (handleNewFrame f s).depthDirty =
      (if f.depthFrame.isValid = true then true else s.depthDirty) ∧
    (handleNewFrame f s).visibleFrame =
      (if f.visibleFrame.isValid = true then f.visibleFrame else s.visibleFrame) ∧
    (handleNewFrame f s).visibleDirty =
      (if f.visibleFrame.isValid = true then true else s.visibleDirty) ∧
    (handleNewFrame f s).irFrame =
      (if f.infraredFrame.isValid = true then f.infraredFrame else s.irFrame) ∧
    (handleNewFrame f s).irDirty =
      (if f.infraredFrame.isValid = true then true else s.irDirty) := by
  unfold handleNewFrame
  obtain ⟨m, i, h⟩ := captureIntrinsics_only (dispatchFrame f s)
  rw [h]
  unfold dispatchFrame
  rw [hf]
  dsimp only
  split <;> split <;> split <;> simp_all

/-! ### The stream-on-ready flag -/

theorem handleNewFrame_streamOnReady (f : Frame) (s : SCState) :
    (handleNewFrame f s).streamOnReady = s.streamOnReady := by
  obtain ⟨df, vf, irf, dd, vd, ird, a, g, m, i, h⟩ := handleNewFrame_only f s
  rw [h]

/-- A start attempt never clears an already-pending stream-on-ready flag. -/
theorem start_streamOnReady_true (ok : Bool) (s : SCState) (h : s.streamOnReady = true) :
    (start ok s).2.streamOnReady = true := by
  unfold start
  dsimp only
  split
  · rfl
  · exact h

/-- A successful start leaves the stream-on-ready flag untouched. -/
theorem start_true_streamOnReady (s : SCState) :
    (start true s).2.streamOnReady = s.streamOnReady := by
  unfold start
  dsimp only
  split
  · rename_i hc
    exact absurd hc.1 (by simp)
  · rfl

theorem handleSessionEvent_streamOnReady_true (e : EventType) (ok : Bool) (s : SCState)
    (h : s.streamOnReady = true) :
    (handleSessionEvent e ok s).streamOnReady = true := by
  cases e <;> simp only [handleSessionEvent]
  case Ready =>
    rw [if_pos h]
    exact start_streamOnReady_true ok s h
  all_goals exact h

theorem dispatchFrame_depth (f : Frame) (s : SCState)
    (hf : f.type = FrameType.DepthFrame) :
    dispatchFrame f s = { s with depthFrame := f.depthFrame, depthDirty := true } := by
  unfold dispatchFrame
  rw [hf]

/-! ### Concrete fixtures for the witnesses -/

/-- A concrete depth frame with a non-identity projection matrix. -/
def dfA : DepthFrame :=
  { width := 2, height := 2, depthInMillimeters := [5, 0, 7, 9]
  , glProjectionMatrix := [2, 0, 0, 0,  0, 1, 0, 0,  0, 0, 1, 0,  0, 0, 0, 1]
  , intrinsics := { cx := 1, cy := 1, fx := 2, fy := 2 }, isValid := true }

/-- A second concrete depth frame with different payload and metadata. -/
def dfB : DepthFrame :=
  { width := 1, height := 2, depthInMillimeters := [4, 6]
  , glProjectionMatrix := [3, 0, 0, 0,  0, 1, 0, 0,  0, 0, 1, 0,  0, 0, 0, 1]
  , intrinsics := { cx := 2, cy := 3, fx := 4, fy := 5 }, isValid := true }

/-- A frame of kind DepthFrame carrying `dfA`. -/
def frameA : Frame :=
  { type := FrameType.DepthFrame, depthFrame := dfA
  , visibleFrame := init.visibleFrame, infraredFrame := init.irFrame
  , accelerometerEvent := init.accelerometerEvent
  , gyroscopeEvent := init.gyroscopeEvent }

/-- A frame of kind DepthFrame carrying `dfB`. -/
def frameB : Frame :=
  { frameA with depthFrame := dfB }

/-- A frame with an unrecognised kind tag. -/
def frameU : Frame :=
  { frameA with type := FrameType.other }

/-- A SynchronizedFrames bundle whose only valid sub-frame is the depth one. -/
def frameS : Frame :=
  { frameA with type := FrameType.SynchronizedFrames }

/-- A concrete state with a 2x2 depth image and simple intrinsics. -/
def wState : SCState :=
  { init with
      depthImg := { width := 2, height := 2, channels := 1, pixels := [5, 0, 7, 9] }
    , depthIntrinsics := { cx := 1, cy := 1, fx := 2, fy := 2 } }

/-- A concrete state in which a deferred start is pending. -/
def sPending : SCState :=
  { init with streamOnReady := true }

/-! ### The claims -/

/-- C1: for every depth image pixel at row `r` and column `c` with depth value
`d`, and the captured intrinsics `(fx, fy, cx, cy)`, the point-cloud rebuild
produces the vertex `(d*(c-cx)/fx, d*(r-cy)/fy, d)` at row-major index
`i = r*cols + c`; a zero-depth pixel goes through the same branch-free formula
and yields the vertex `(0,0,0)`. -/
theorem claim_C1 (s : SCState) (r c : ℕ)
    (hr : r < s.depthImg.height) (hc : c < s.depthImg.width) :
    (updatePointCloud s).pointcloud.getD (r * s.depthImg.width + c) ⟨0, 0, 0⟩ =
      { x := s.depthImg.pixels.getD (r * s.depthImg.width + c) 0 *
              ((c : ℚ) - s.depthIntrinsics.cx) / s.depthIntrinsics.fx
      , y := s.depthImg.pixels.getD (r * s.depthImg.width + c) 0 *
              ((r : ℚ) - s.depthIntrinsics.cy) / s.depthIntrinsics.fy
      , z := s.depthImg.pixels.getD (r * s.depthImg.width + c) 0 } ∧
    (s.depthImg.pixels.getD (r * s.depthImg.width + c) 0 = 0 →
      (updatePointCloud s).pointcloud.getD (r * s.depthImg.width + c) ⟨0, 0, 0⟩ =
        ⟨0, 0, 0⟩) := by
  have hmain : (updatePointCloud s).pointcloud.getD (r * s.depthImg.width + c) ⟨0, 0, 0⟩ =
      unprojectPixel s.depthIntrinsics s.depthImg.pixels s.depthImg.width r c :=
    buildVertices_getD s.depthIntrinsics s.depthImg.pixels
      s.depthImg.height s.depthImg.width r c hr hc
  constructor
  · rw [hmain]
    rfl
  · intro hz
    rw [hmain]
    unfold unprojectPixel
    dsimp only
    rw [hz]
    simp

theorem claim_C1_witness :
    1 < wState.depthImg.height ∧ 0 < wState.depthImg.width ∧
    ((updatePointCloud wState).pointcloud.getD (1 * wState.depthImg.width + 0) ⟨0, 0, 0⟩ =
      { x := wState.depthImg.pixels.getD (1 * wState.depthImg.width + 0) 0 *
              ((0 : ℚ) - wState.depthIntrinsics.cx) / wState.depthIntrinsics.fx
      , y := wState.depthImg.pixels.getD (1 * wState.depthImg.width + 0) 0 *
              ((1 : ℚ) - wState.depthIntrinsics.cy) / wState.depthIntrinsics.fy
      , z := wState.depthImg.pixels.getD (1 * wState.depthImg.width + 0) 0 } ∧
     (wState.depthImg.pixels.getD (1 * wState.depthImg.width + 0) 0 = 0 →
      (updatePointCloud wState).pointcloud.getD (1 * wState.depthImg.width + 0) ⟨0, 0, 0⟩ =
        ⟨0, 0, 0⟩)) :=
  ⟨by decide, by decide, claim_C1 wState 1 0 (by decide) (by decide)⟩

/-- C3: the spec says `setup(settings)` returns a boolean success indicator
(true when monitoring came up, false when it failed). The C++ function is
declared `bool` but contains no return statement on any path, so no boolean is
ever returned to the caller: the modelled return value is `none` whatever the
monitoring outcome. -/
theorem claim_C3 (monitoringStarted : Bool) :
    (setup monitoringStarted).1 = none := by
  cases monitoringStarted <;> rfl

/-- C8: after every point-cloud rebuild the vertex sequence length (and the
uploaded vbo length) equals the depth image's width times its height, whatever
the previous point-cloud length was. -/
theorem claim_C8 (s : SCState) :
    (updatePointCloud s).pointcloud.length = s.depthImg.width * s.depthImg.height ∧
    (updatePointCloud s).vbo.length = s.depthImg.width * s.depthImg.height := by
  constructor
  · rw [show (updatePointCloud s).pointcloud =
        buildVertices s.depthIntrinsics s.depthImg.pixels
          s.depthImg.height s.depthImg.width from rfl,
      length_buildVertices, Nat.mul_comm]
  · rw [show (updatePointCloud s).vbo =
        buildVertices s.depthIntrinsics s.depthImg.pixels
          s.depthImg.height s.depthImg.width from rfl,
      length_buildVertices, Nat.mul_comm]

/-- C2: from any state still holding the identity sentinel, the first depth
frame (carrying a non-identity projection matrix) captures the projection
matrix and intrinsics from that frame, and no later operation of any kind —
further frames, ticks, session events, start or stop — ever changes them. -/
theorem claim_C2 (s : SCState) (f : Frame) (ops : List Op)
    (hsent : s.depthProjectionMatrix = identity4)
    (hf : f.type = FrameType.DepthFrame)
    (hnonid : f.depthFrame.glProjectionMatrix ≠ identity4) :
    (handleNewFrame f s).depthIntrinsics = f.depthFrame.intrinsics ∧
    (handleNewFrame f s).depthProjectionMatrix = f.depthFrame.glProjectionMatrix ∧
    (run ops (handleNewFrame f s)).depthIntrinsics = f.depthFrame.intrinsics ∧
    (run ops (handleNewFrame f s)).depthProjectionMatrix =
      f.depthFrame.glProjectionMatrix := by
  have hstep : handleNewFrame f s =
      { s with depthFrame := f.depthFrame, depthDirty := true
             , depthProjectionMatrix := f.depthFrame.glProjectionMatrix
             , depthIntrinsics := f.depthFrame.intrinsics } := by
    unfold handleNewFrame
    rw [dispatchFrame_depth f s hf]
    unfold captureIntrinsics
    rw [if_pos ⟨rfl, hsent⟩]
  have h1 : (handleNewFrame f s).depthIntrinsics = f.depthFrame.intrinsics := by
    rw [hstep]
  have h2 : (handleNewFrame f s).depthProjectionMatrix =
      f.depthFrame.glProjectionMatrix := by
    rw [hstep]
  have hstab := run_capture_stable ops (handleNewFrame f s) (by rw [h2]; exact hnonid)
  exact ⟨h1, h2, hstab.2.trans h1, hstab.1.trans h2⟩

theorem claim_C2_witness :
    init.depthProjectionMatrix = identity4 ∧
    frameA.type = FrameType.DepthFrame ∧
    frameA.depthFrame.glProjectionMatrix ≠ identity4 ∧
    ((handleNewFrame frameA init).depthIntrinsics = frameA.depthFrame.intrinsics ∧
     (handleNewFrame frameA init).depthProjectionMatrix =
       frameA.depthFrame.glProjectionMatrix ∧
     (run [Op.newFrame frameB, Op.tick] (handleNewFrame frameA init)).depthIntrinsics =
       frameA.depthFrame.intrinsics ∧
     (run [Op.newFrame frameB, Op.tick] (handleNewFrame frameA init)).depthProjectionMatrix =
       frameA.depthFrame.glProjectionMatrix) :=
  ⟨rfl, rfl, by decide,
   claim_C2 init frameA [Op.newFrame frameB, Op.tick] rfl rfl (by decide)⟩

/-- C4: two depth frames delivered between two drains — the second frame's
payload fully overwrites the first in the depth slot; after the drain the depth
image holds exactly the second frame's pixels, the point cloud is rebuilt from
the second frame's depth data, and the depth dirty flag ends cleared. -/
theorem claim_C4 (s : SCState) (f1 f2 : Frame)
    (_h1 : f1.type = FrameType.DepthFrame) (h2 : f2.type = FrameType.DepthFrame) :
    (handleNewFrame f2 (handleNewFrame f1 s)).depthFrame = f2.depthFrame ∧
    (update (handleNewFrame f2 (handleNewFrame f1 s))).depthImg =
      { width := f2.depthFrame.width, height := f2.depthFrame.height, channels := 1
      , pixels := f2.depthFrame.depthInMillimeters } ∧
    (update (handleNewFrame f2 (handleNewFrame f1 s))).pointcloud =
      buildVertices (handleNewFrame f2 (handleNewFrame f1 s)).depthIntrinsics
        f2.depthFrame.depthInMillimeters f2.depthFrame.height f2.depthFrame.width ∧
    (update (handleNewFrame f2 (handleNewFrame f1 s))).depthDirty = false := by
  obtain ⟨hslot, hdirty⟩ := handleNewFrame_depthSlot f2 (handleNewFrame f1 s) h2
  obtain ⟨hImg, hpc, hvbo, hdd⟩ :=
    update_dirtyDepth (handleNewFrame f2 (handleNewFrame f1 s)) hdirty
  refine ⟨hslot, ?_, ?_, hdd⟩
  · rw [hImg, hslot]
  · rw [hpc, hslot]

theorem claim_C4_witness :
    frameA.type = FrameType.DepthFrame ∧
    frameB.type = FrameType.DepthFrame ∧
    ((handleNewFrame frameB (handleNewFrame frameA init)).depthFrame =
       frameB.depthFrame ∧
     (update (handleNewFrame frameB (handleNewFrame frameA init))).depthImg =
       { width := frameB.depthFrame.width, height := frameB.depthFrame.height
       , channels := 1, pixels := frameB.depthFrame.depthInMillimeters } ∧
     (update (handleNewFrame frameB (handleNewFrame frameA init))).pointcloud =
       buildVertices (handleNewFrame frameB (handleNewFrame frameA init)).depthIntrinsics
         frameB.depthFrame.depthInMillimeters frameB.depthFrame.height
         frameB.depthFrame.width ∧
     (update (handleNewFrame frameB (handleNewFrame frameA init))).depthDirty = false) :=
  ⟨rfl, rfl, claim_C4 init frameA frameB rfl rfl⟩

/-- C5: a start attempt that fails while no deferred start is pending sets the
stream-on-ready flag and returns false; and a Ready session event received
while the flag is set performs exactly a new call to `start`. -/
theorem claim_C5 (s : SCState) (ok : Bool) :
    (s.streamOnReady = false →
      (start false s).1 = false ∧ (start false s).2.streamOnReady = true) ∧
    (s.streamOnReady = true →
      handleSessionEvent EventType.Ready ok s = (start ok s).2) := by
  constructor
  · intro h
    refine ⟨rfl, ?_⟩
    unfold start
    dsimp only
    rw [if_pos ⟨rfl, h⟩]
  · intro h
    unfold handleSessionEvent
    rw [if_pos h]

theorem claim_C5_witness :
    init.streamOnReady = false ∧
    ((start false init).1 = false ∧ (start false init).2.streamOnReady = true) ∧
    sPending.streamOnReady = true ∧
    handleSessionEvent EventType.Ready true sPending = (start true sPending).2 :=
  ⟨rfl, (claim_C5 init true).1 rfl, rfl, (claim_C5 sPending true).2 rfl⟩

/-- C6: the is-new-frame signal exposed by a drain equals the OR of the three
dirty flags observed at entry; and a drain entered with all three flags clear
leaves the three image containers, the point cloud and the GPU buffer unchanged
and reports no new frame. -/
theorem claim_C6 (s : SCState) :
    (update s).isFrameNew = (s.depthDirty || s.irDirty || s.visibleDirty) ∧
    (s.depthDirty = false → s.irDirty = false → s.visibleDirty = false →
      (update s).depthImg = s.depthImg ∧ (update s).irImg = s.irImg ∧
      (update s).visibleImg = s.visibleImg ∧ (update s).pointcloud = s.pointcloud ∧
      (update s).vbo = s.vbo ∧ (update s).isFrameNew = false) := by
  refine ⟨update_isFrameNew s, ?_⟩
  intro h1 h2 h3
  rw [update_clean s h1 h2 h3]
  exact ⟨rfl, rfl, rfl, rfl, rfl, rfl⟩

theorem claim_C6_witness :
    ((update init).isFrameNew = (init.depthDirty || init.irDirty || init.visibleDirty)) ∧
    init.depthDirty = false ∧ init.irDirty = false ∧ init.visibleDirty = false ∧
    ((update init).depthImg = init.depthImg ∧ (update init).irImg = init.irImg ∧
     (update init).visibleImg = init.visibleImg ∧
     (update init).pointcloud = init.pointcloud ∧
     (update init).vbo = init.vbo ∧ (update init).isFrameNew = false) :=
  ⟨(claim_C6 init).1, rfl, rfl, rfl, (claim_C6 init).2 rfl rfl rfl⟩

/-- C7: a SynchronizedFrames bundle updates each modality exactly when its
sub-frame is valid (replace the slot and mark it dirty, else leave both alone);
in particular a bundle whose only valid sub-frame is the depth one replaces the
depth slot and sets its dirty flag while leaving the infrared and visible slots
and flags untouched. -/
theorem claim_C7 (s : SCState) (f : Frame)
    (hty : f.type = FrameType.SynchronizedFrames) :
    ((handleNewFrame f s).depthFrame =
        (if f.depthFrame.isValid = true then f.depthFrame else s.depthFrame) ∧
     (handleNewFrame f s).depthDirty =
        (if f.depthFrame.isValid = true then true else s.depthDirty) ∧
     (handleNewFrame f s).visibleFrame =
        (if f.visibleFrame.isValid = true then f.visibleFrame else s.visibleFrame) ∧
     (handleNewFrame f s).visibleDirty =
        (if f.visibleFrame.isValid = true then true else s.visibleDirty) ∧
     (handleNewFrame f s).irFrame =
        (if f.infraredFrame.isValid = true then f.infraredFrame else s.irFrame) ∧
     (handleNewFrame f s).irDirty =
        (if f.infraredFrame.isValid = true then true else s.irDirty)) ∧
    (f.depthFrame.isValid = true → f.visibleFrame.isValid = false →
     f.infraredFrame.isValid = false →
      (handleNewFrame f s).depthFrame = f.depthFrame ∧
      (handleNewFrame f s).depthDirty = true ∧
      (handleNewFrame f s).visibleFrame = s.visibleFrame ∧
      (handleNewFrame f s).visibleDirty = s.visibleDirty ∧
      (handleNewFrame f s).irFrame = s.irFrame ∧
      (handleNewFrame f s).irDirty = s.irDirty) := by
  obtain ⟨e1, e2, e3, e4, e5, e6⟩ := handleNewFrame_sync f s hty
  refine ⟨⟨e1, e2, e3, e4, e5, e6⟩, ?_⟩
  intro hd hv hi
  rw [e1, e2, e3, e4, e5, e6, hd, hv, hi]
  simp

theorem claim_C7_witness :
    frameS.type = FrameType.SynchronizedFrames ∧
    frameS.depthFrame.isValid = true ∧
    frameS.visibleFrame.isValid = false ∧
    frameS.infraredFrame.isValid = false ∧
    ((handleNewFrame frameS init).depthFrame = frameS.depthFrame ∧
     (handleNewFrame frameS init).depthDirty = true ∧
     (handleNewFrame frameS init).visibleFrame = init.visibleFrame ∧
     (handleNewFrame frameS init).visibleDirty = init.visibleDirty ∧
     (handleNewFrame frameS init).irFrame = init.irFrame ∧
     (handleNewFrame frameS init).irDirty = init.irDirty) :=
  ⟨rfl, rfl, rfl, rfl, (claim_C7 init frameS rfl).2 rfl rfl rfl⟩

/-- C9: a frame of unrecognised kind delivered in any reachable state performs
no state change at all: frame slots, dirty flags, motion registers, images,
point cloud, intrinsics and projection matrix are left exactly as they were. -/
theorem claim_C9 (ops : List Op) (f : Frame) (hf : f.type = FrameType.other) :
    handleNewFrame f (run ops init) = run ops init :=
  handleNewFrame_other f (run ops init) hf (captureInv_run ops init captureInv_init)

theorem claim_C9_witness :
    frameU.type = FrameType.other ∧
    handleNewFrame frameU (run [Op.newFrame frameA, Op.tick] init) =
      run [Op.newFrame frameA, Op.tick] init :=
  ⟨rfl, claim_C9 [Op.newFrame frameA, Op.tick] frameU rfl⟩

/-- C10: a successful start returns true and leaves the stream-on-ready flag
exactly as it was (in particular it does not clear a pending deferred start);
no operation other than stop ever clears a set flag, and stop always clears
it. -/
theorem claim_C10 (s : SCState) :
    (start true s).1 = true ∧
    (start true s).2.streamOnReady = s.streamOnReady ∧
    (∀ op : Op, s.streamOnReady = true → op ≠ Op.doStop →
      (applyOp op s).streamOnReady = true) ∧
    (stop s).streamOnReady = false := by
  refine ⟨rfl, start_true_streamOnReady s, ?_, rfl⟩
  intro op h hop
  cases op with
  | newFrame f =>
    simp only [applyOp]
    rw [handleNewFrame_streamOnReady]
    exact h
  | sessionEvent e ok => exact handleSessionEvent_streamOnReady_true e ok s h
  | tick =>
    simp only [applyOp]
    rw [update_streamOnReady]
    exact h
  | doStart ok => exact start_streamOnReady_true ok s h
  | doStop => exact absurd rfl hop

theorem claim_C10_witness :
    (start true sPending).1 = true ∧
    (start true sPending).2.streamOnReady = sPending.streamOnReady ∧
    sPending.streamOnReady = true ∧ Op.tick ≠ Op.doStop ∧
    (applyOp Op.tick sPending).streamOnReady = true ∧
    (stop sPending).streamOnReady = false :=
  ⟨(claim_C10 sPending).1, (claim_C10 sPending).2.1, rfl, by decide,
   (claim_C10 sPending).2.2.1 Op.tick rfl (by decide),
   (claim_C10 sPending).2.2.2⟩

end StructureCore
